import Mathlib

/-!
Shallow embedding of the sunpath task-bounty program (two source variants:
`src/src/lib.rs` and `src/Program_sunpath/src/lib.rs`).  Machine integers are
modelled as `Nat`/`Int` with explicit range checks mirroring the source's
`checked_add` calls; fallible instructions return `Except SunpathError`.
Lamport movements are modelled as explicit `Transfer` records; Anchor's
`has_one` account constraints are modelled as the leading signer-equality
check of each instruction.
-/

/-- Account addresses (Solana `Pubkey`), modelled as natural numbers. -/
abbrev Pubkey := Nat

/-- Status enum of a task record, from `enum TaskStatus` in the source. -/
inductive TaskStatus where
  | Open
  | Approved
  | Rejected
  | Expired
  | Reclaimed
deriving DecidableEq, Repr

/-- Global configuration record, from `struct ProgramConfig`. -/
structure ProgramConfig where
  admin : Pubkey
  dao_treasury_address : Pubkey
  governance_token_mint : Pubkey
  minimum_reward_amount : Nat
  dao_fee_percentage : Nat
  denial_penalty_duration : Int
  patroller_governance_token_amount : Nat
  is_initialized : Bool
deriving DecidableEq, Repr

/-- Task escrow record, from `struct TaskAccount`. -/
structure TaskAccount where
  task_id : Nat
  consigner_wallet : Pubkey
  reward_amount_locked : Nat
  creation_timestamp : Int
  duration_seconds : Int
  expiration_timestamp : Int
  status : TaskStatus
  status_update_timestamp : Int
  assigned_reporter : Option Pubkey
  report_pda : Option Pubkey
  is_initialized : Bool
deriving DecidableEq, Repr

/-- Per-consigner action counter, from `struct AdminActionCounter`. -/
structure AdminActionCounter where
  admin : Pubkey
  accept_count : Nat
  reject_count : Nat
deriving DecidableEq, Repr

/-- Error enum, from `enum SunpathError`. -/
inductive SunpathError where
  | RewardAmountTooLow
  | TimestampOverflow
  | NotAdmin
  | TaskNotOpen
  | TaskExpired
  | NotConsigner
  | CannotReclaimFunds
  | DenialLockupActive
  | CounterOverflow
  | NotTaskConsigner
deriving DecidableEq, Repr

/-- Smallest `i64` value. -/
def i64Min : Int := -(2 ^ 63)

/-- Largest `i64` value. -/
def i64Max : Int := 2 ^ 63 - 1

/-- Largest `u64` value. -/
def u64Max : Nat := 2 ^ 64 - 1

/-- Rust `i64::checked_add`: `none` exactly when the exact sum leaves the
signed 64-bit range. -/
def checkedAddI64 (a b : Int) : Option Int :=
  if i64Min ≤ a + b ∧ a + b ≤ i64Max then some (a + b) else none

/-- Rust `u64::checked_add`: `none` exactly when the exact sum exceeds
`u64::MAX`. -/
def checkedAddU64 (a b : Nat) : Option Nat :=
  if a + b ≤ u64Max then some (a + b) else none

/-- One lamport movement: source account, destination account, amount. -/
structure Transfer where
  source : Pubkey
  dest : Pubkey
  amount : Nat
deriving DecidableEq, Repr

/-- Result of a successful `accept_task`: the updated record, the updated
counter, and the lamport movement out of task custody. -/
structure AcceptResult where
  task : TaskAccount
  counter : AdminActionCounter
  transfer : Transfer
deriving DecidableEq, Repr

/-- Result of a successful `reclaim_task_funds`. -/
structure ReclaimResult where
  task : TaskAccount
  transfer : Transfer
deriving DecidableEq, Repr

/-- Embedding of `create_task` (`src/src/lib.rs`, lines 44-118): requires
`reward_amount >= minimum_reward_amount`, locks the reward into the task PDA,
and initialises the record with an overflow-checked expiration timestamp.
`now` is the single `Clock::get()` sample; `taskPda` the task account
address. -/
def create_task (config : ProgramConfig) (now : Int) (consigner taskPda : Pubkey)
    (task_id : Nat) (reward_amount : Nat) (duration_seconds : Int) :
    Except SunpathError (TaskAccount × Transfer) :=
  if reward_amount < config.minimum_reward_amount then
    .error .RewardAmountTooLow
  else
    match checkedAddI64 now duration_seconds with
    | none => .error .TimestampOverflow
    | some expiration =>
        .ok ({ task_id := task_id,
               consigner_wallet := consigner,
               reward_amount_locked := reward_amount,
               creation_timestamp := now,
               duration_seconds := duration_seconds,
               expiration_timestamp := expiration,
               status := .Open,
               status_update_timestamp := now,
               assigned_reporter := none,
               report_pda := none,
               is_initialized := true },
             { source := consigner, dest := taskPda, amount := reward_amount })

/-- Embedding of `create_task` from the `Program_sunpath` variant
(`src/Program_sunpath/src/lib.rs`, lines 44-92); the body only differs from
the first variant in logging. -/
def create_task_v2 (config : ProgramConfig) (now : Int) (consigner taskPda : Pubkey)
    (task_id : Nat) (reward_amount : Nat) (duration_seconds : Int) :
    Except SunpathError (TaskAccount × Transfer) :=
  if reward_amount < config.minimum_reward_amount then
    .error .RewardAmountTooLow
  else
    match checkedAddI64 now duration_seconds with
    | none => .error .TimestampOverflow
    | some expiration =>
        .ok ({ task_id := task_id,
               consigner_wallet := consigner,
               reward_amount_locked := reward_amount,
               creation_timestamp := now,
               duration_seconds := duration_seconds,
               expiration_timestamp := expiration,
               status := .Open,
               status_update_timestamp := now,
               assigned_reporter := none,
               report_pda := none,
               is_initialized := true },
             { source := consigner, dest := taskPda, amount := reward_amount })

/-- Embedding of `accept_task` (`src/src/lib.rs`, lines 120-220).  The
leading check is Anchor's `has_one = consigner_wallet @ NotTaskConsigner`.
The CPI `system_instruction::transfer` names the `recipient` argument as
destination; the counter account is `init_if_needed` and the body stores
`admin_action_counter.admin = signer` before the checked increment. -/
def accept_task (task : TaskAccount) (counter : AdminActionCounter)
    (signer recipient recipientAccount taskPda : Pubkey) (now : Int) :
    Except SunpathError AcceptResult :=
  if task.consigner_wallet ≠ signer then .error .NotTaskConsigner
  else if task.status ≠ .Open then .error .TaskNotOpen
  else if ¬ (now ≤ task.expiration_timestamp) then .error .TaskExpired
  else
    match checkedAddU64 counter.accept_count 1 with
    | none => .error .CounterOverflow
    | some newCount =>
        .ok { task := { task with
                          status := .Approved,
                          status_update_timestamp := now,
                          assigned_reporter := some recipient },
              counter := { counter with admin := signer, accept_count := newCount },
              transfer := { source := taskPda, dest := recipient,
                            amount := task.reward_amount_locked } }

/-- Embedding of `accept_task` from the `Program_sunpath` variant
(`src/Program_sunpath/src/lib.rs`, lines 105-151): the reward lamports are
debited from the task account and credited directly to the supplied
`recipient_account` (not to the `recipient` argument), and the pre-created
counter's `admin` field is left untouched. -/
def accept_task_v2 (task : TaskAccount) (counter : AdminActionCounter)
    (signer recipient recipientAccount taskPda : Pubkey) (now : Int) :
    Except SunpathError AcceptResult :=
  if task.consigner_wallet ≠ signer then .error .NotTaskConsigner
  else if task.status ≠ .Open then .error .TaskNotOpen
  else if ¬ (now ≤ task.expiration_timestamp) then .error .TaskExpired
  else
    match checkedAddU64 counter.accept_count 1 with
    | none => .error .CounterOverflow
    | some newCount =>
        .ok { task := { task with
                          status := .Approved,
                          status_update_timestamp := now,
                          assigned_reporter := some recipient },
              counter := { counter with accept_count := newCount },
              transfer := { source := taskPda, dest := recipientAccount,
                            amount := task.reward_amount_locked } }

/-- Embedding of `reject_task` (`src/src/lib.rs`, lines 222-279). -/
def reject_task (task : TaskAccount) (counter : AdminActionCounter)
    (signer : Pubkey) (now : Int) :
    Except SunpathError (TaskAccount × AdminActionCounter) :=
  if task.consigner_wallet ≠ signer then .error .NotTaskConsigner
  else if task.status ≠ .Open then .error .TaskNotOpen
  else if ¬ (now ≤ task.expiration_timestamp) then .error .TaskExpired
  else
    match checkedAddU64 counter.reject_count 1 with
    | none => .error .CounterOverflow
    | some newCount =>
        .ok ({ task with status := .Rejected, status_update_timestamp := now },
             { counter with admin := signer, reject_count := newCount })

/-- Embedding of `reject_task` from the `Program_sunpath` variant
(`src/Program_sunpath/src/lib.rs`, lines 153-185): identical except the
counter's `admin` field is not rewritten. -/
def reject_task_v2 (task : TaskAccount) (counter : AdminActionCounter)
    (signer : Pubkey) (now : Int) :
    Except SunpathError (TaskAccount × AdminActionCounter) :=
  if task.consigner_wallet ≠ signer then .error .NotTaskConsigner
  else if task.status ≠ .Open then .error .TaskNotOpen
  else if ¬ (now ≤ task.expiration_timestamp) then .error .TaskExpired
  else
    match checkedAddU64 counter.reject_count 1 with
    | none => .error .CounterOverflow
    | some newCount =>
        .ok ({ task with status := .Rejected, status_update_timestamp := now },
             { counter with reject_count := newCount })

/-- Embedding of `reclaim_task_funds` (`src/src/lib.rs`, lines 281-396).
Eligibility in source order: `Rejected` checks the overflow-checked lockup
deadline (failing early with `DenialLockupActive` when still locked),
`Open`-and-expired reclaims unconditionally, everything else fails with
`CannotReclaimFunds`. -/
def reclaim_task_funds (config : ProgramConfig) (task : TaskAccount)
    (signer taskPda : Pubkey) (now : Int) : Except SunpathError ReclaimResult :=
  if task.consigner_wallet ≠ signer then .error .NotConsigner
  else if task.status = .Rejected then
    match checkedAddI64 task.status_update_timestamp config.denial_penalty_duration with
    | none => .error .TimestampOverflow
    | some reclaimAllowedAt =>
        if now ≥ reclaimAllowedAt then
          .ok { task := { task with
                            status := .Reclaimed,
                            status_update_timestamp := now,
                            reward_amount_locked := 0 },
                transfer := { source := taskPda, dest := signer,
                              amount := task.reward_amount_locked } }
        else .error .DenialLockupActive
  else if task.status = .Open ∧ now > task.expiration_timestamp then
    .ok { task := { task with
                      status := .Reclaimed,
                      status_update_timestamp := now,
                      reward_amount_locked := 0 },
          transfer := { source := taskPda, dest := signer,
                        amount := task.reward_amount_locked } }
  else .error .CannotReclaimFunds

/-- Embedding of `reclaim_task_funds` from the `Program_sunpath` variant
(`src/Program_sunpath/src/lib.rs`, lines 188-284); same logic, direct lamport
debit/credit instead of a CPI, and extra logging. -/
def reclaim_task_funds_v2 (config : ProgramConfig) (task : TaskAccount)
    (signer taskPda : Pubkey) (now : Int) : Except SunpathError ReclaimResult :=
  if task.consigner_wallet ≠ signer then .error .NotConsigner
  else if task.status = .Rejected then
    match checkedAddI64 task.status_update_timestamp config.denial_penalty_duration with
    | none => .error .TimestampOverflow
    | some reclaimAllowedAt =>
        if now ≥ reclaimAllowedAt then
          .ok { task := { task with
                            status := .Reclaimed,
                            status_update_timestamp := now,
                            reward_amount_locked := 0 },
                transfer := { source := taskPda, dest := signer,
                              amount := task.reward_amount_locked } }
        else .error .DenialLockupActive
  else if task.status = .Open ∧ now > task.expiration_timestamp then
    .ok { task := { task with
                      status := .Reclaimed,
                      status_update_timestamp := now,
                      reward_amount_locked := 0 },
          transfer := { source := taskPda, dest := signer,
                        amount := task.reward_amount_locked } }
  else .error .CannotReclaimFunds

/-- Reachable states of one task record together with the lamports held in
its custody (the task PDA balance attributable to the locked reward).  A
record is born by `create_task`, which moves the reward into custody, and is
mutated by the three lifecycle instructions; a successful instruction's
outgoing transfer debits custody. -/
inductive Reach (config : ProgramConfig) (consigner taskPda : Pubkey) :
    TaskAccount → Nat → Prop where
  | created : ∀ now task_id reward dur task tr,
      create_task config now consigner taskPda task_id reward dur = .ok (task, tr) →
      Reach config consigner taskPda task tr.amount
  | accepted : ∀ task custody counter signer recipient recipientAccount now res,
      Reach config consigner taskPda task custody →
      accept_task task counter signer recipient recipientAccount taskPda now = .ok res →
      Reach config consigner taskPda res.task (custody - res.transfer.amount)
  | rejected : ∀ task custody counter signer now task2 counter2,
      Reach config consigner taskPda task custody →
      reject_task task counter signer now = .ok (task2, counter2) →
      Reach config consigner taskPda task2 custody
  | reclaimed : ∀ task custody signer now res,
      Reach config consigner taskPda task custody →
      reclaim_task_funds config task signer taskPda now = .ok res →
      Reach config consigner taskPda res.task (custody - res.transfer.amount)

deriving instance DecidableEq for Except

/-- Sample approved task: `task0` after a successful `accept_task` at time 1
with recipient 6. -/
def task0A : TaskAccount :=
  { task_id := 1, consigner_wallet := 5, reward_amount_locked := 1000,
    creation_timestamp := 0, duration_seconds := 3600,
    expiration_timestamp := 3600, status := .Approved,
    status_update_timestamp := 1, assigned_reporter := some 6,
    report_pda := none, is_initialized := true }

/-- Sample rejected task: consigner 5, reward 500, rejected at time 50 (so
with `cfg0` the lockup ends at 150). -/
def rejTask : TaskAccount :=
  { task_id := 3, consigner_wallet := 5, reward_amount_locked := 500,
    creation_timestamp := 0, duration_seconds := 100,
    expiration_timestamp := 100, status := .Rejected,
    status_update_timestamp := 50, assigned_reporter := none,
    report_pda := none, is_initialized := true }

/-- Sample rejected task whose `status_update_timestamp` sits at `i64::MAX`,
so that adding any positive penalty duration overflows. -/
def rejOvTask : TaskAccount :=
  { task_id := 4, consigner_wallet := 5, reward_amount_locked := 500,
    creation_timestamp := 0, duration_seconds := 100,
    expiration_timestamp := 100, status := .Rejected,
    status_update_timestamp := i64Max, assigned_reporter := none,
    report_pda := none, is_initialized := true }

/-- Sample task carrying the dead `Expired` status value. -/
def expTask : TaskAccount :=
  { task_id := 2, consigner_wallet := 5, reward_amount_locked := 500,
    creation_timestamp := 0, duration_seconds := 10,
    expiration_timestamp := 10, status := .Expired,
    status_update_timestamp := 0, assigned_reporter := none,
    report_pda := none, is_initialized := true }

/-- Counter for consigner 5 after one accept. -/
def cnt1 : AdminActionCounter := { admin := 5, accept_count := 1, reject_count := 0 }

/-- Counter for consigner 5 whose accept count sits at `u64::MAX`. -/
def cntMax : AdminActionCounter := { admin := 5, accept_count := u64Max, reject_count := u64Max }

/-- Sample configuration: minimum reward 10, denial penalty 100 seconds. -/
def cfg0 : ProgramConfig :=
  { admin := 1, dao_treasury_address := 2, governance_token_mint := 3,
    minimum_reward_amount := 10, dao_fee_percentage := 5,
    denial_penalty_duration := 100, patroller_governance_token_amount := 7,
    is_initialized := true }

/-- Sample open task: consigner 5, reward 1000, created at 0, expires at 3600
(exactly the record produced by `create_task cfg0 0 5 9 1 1000 3600`). -/
def task0 : TaskAccount :=
  { task_id := 1, consigner_wallet := 5, reward_amount_locked := 1000,
    creation_timestamp := 0, duration_seconds := 3600,
    expiration_timestamp := 3600, status := .Open,
    status_update_timestamp := 0, assigned_reporter := none,
    report_pda := none, is_initialized := true }

/-- Sample fresh counter for consigner 5. -/
def cnt0 : AdminActionCounter := { admin := 5, accept_count := 0, reject_count := 0 }

/-- Record that `create_task` writes when its checks pass: status `Open`,
expiration `now + dur`, both timestamps `now`. -/
def createdTask (consigner : Pubkey) (now : Int) (task_id reward : Nat) (dur : Int) :
    TaskAccount :=
  { task_id := task_id, consigner_wallet := consigner, reward_amount_locked := reward,
    creation_timestamp := now, duration_seconds := dur,
    expiration_timestamp := now + dur, status := .Open,
    status_update_timestamp := now, assigned_reporter := none,
    report_pda := none, is_initialized := true }

lemma accept_ok {task : TaskAccount} {counter : AdminActionCounter}
    {signer recipient recipientAccount taskPda : Pubkey} {now : Int} {res : AcceptResult}
    (h : accept_task task counter signer recipient recipientAccount taskPda now = .ok res) :
    task.consigner_wallet = signer ∧ task.status = .Open ∧ now ≤ task.expiration_timestamp ∧
    res = { task := { task with
                        status := .Approved,
                        status_update_timestamp := now,
                        assigned_reporter := some recipient },
            counter := { counter with
                           admin := signer,
                           accept_count := counter.accept_count + 1 },
            transfer := { source := taskPda, dest := recipient,
                          amount := task.reward_amount_locked } } := by
  by_cases h1 : task.consigner_wallet = signer
  · subst h1
    by_cases h2 : task.status = TaskStatus.Open
    · by_cases h3 : now ≤ task.expiration_timestamp
      · rcases hc : checkedAddU64 counter.accept_count 1 with _ | n
        · simp [accept_task, h2, h3, hc] at h
        · have hn : n = counter.accept_count + 1 := by
            unfold checkedAddU64 at hc
            split at hc
            · exact (Option.some.injEq _ _ ▸ hc).symm
            · exact absurd hc (by simp)
          subst hn
          simp [accept_task, h2, h3, hc] at h
          exact ⟨rfl, h2, h3, h.symm⟩
      · simp [accept_task, h2, h3] at h
    · simp [accept_task, h2] at h
  · simp [accept_task, h1] at h

lemma checkedAddI64_in {a b : Int} (h1 : i64Min ≤ a + b) (h2 : a + b ≤ i64Max) :
    checkedAddI64 a b = some (a + b) := by
  unfold checkedAddI64; rw [if_pos ⟨h1, h2⟩]

lemma checkedAddU64_in {a : Nat} (h : a < u64Max) :
    checkedAddU64 a 1 = some (a + 1) := by
  unfold checkedAddU64; rw [if_pos (by omega)]

lemma create_ok {config : ProgramConfig} {now : Int} {consigner taskPda : Pubkey}
    {task_id reward : Nat} {dur : Int} {t : TaskAccount} {tr : Transfer}
    (h : create_task config now consigner taskPda task_id reward dur = .ok (t, tr)) :
    config.minimum_reward_amount ≤ reward ∧ i64Min ≤ now + dur ∧ now + dur ≤ i64Max ∧
    t = { task_id := task_id, consigner_wallet := consigner, reward_amount_locked := reward,
          creation_timestamp := now, duration_seconds := dur,
          expiration_timestamp := now + dur, status := .Open,
          status_update_timestamp := now, assigned_reporter := none,
          report_pda := none, is_initialized := true } ∧
    tr = { source := consigner, dest := taskPda, amount := reward } := by
  by_cases h1 : reward < config.minimum_reward_amount
  · simp [create_task, h1] at h
  · rcases hc : checkedAddI64 now dur with _ | e
    · simp [create_task, h1, hc] at h
    · have he : i64Min ≤ now + dur ∧ now + dur ≤ i64Max ∧ e = now + dur := by
        unfold checkedAddI64 at hc
        split at hc
        · rename_i hcond
          exact ⟨hcond.1, hcond.2, (Option.some.injEq _ _ ▸ hc).symm⟩
        · exact absurd hc (by simp)
      obtain ⟨hlo, hhi, he⟩ := he
      subst he
      simp [create_task, h1, hc] at h
      exact ⟨by omega, hlo, hhi, h.1.symm, h.2.symm⟩

lemma reject_ok {task : TaskAccount} {counter : AdminActionCounter}
    {signer : Pubkey} {now : Int} {task2 : TaskAccount} {counter2 : AdminActionCounter}
    (h : reject_task task counter signer now = .ok (task2, counter2)) :
    task.consigner_wallet = signer ∧ task.status = .Open ∧ now ≤ task.expiration_timestamp ∧
    task2 = { task with status := .Rejected, status_update_timestamp := now } ∧
    counter2 = { counter with
                   admin := signer,
                   reject_count := counter.reject_count + 1 } := by
  by_cases h1 : task.consigner_wallet = signer
  · subst h1
    by_cases h2 : task.status = TaskStatus.Open
    · by_cases h3 : now ≤ task.expiration_timestamp
      · rcases hc : checkedAddU64 counter.reject_count 1 with _ | n
        · simp [reject_task, h2, h3, hc] at h
        · have hn : n = counter.reject_count + 1 := by
            unfold checkedAddU64 at hc
            split at hc
            · exact (Option.some.injEq _ _ ▸ hc).symm
            · exact absurd hc (by simp)
          subst hn
          simp [reject_task, h2, h3, hc] at h
          exact ⟨rfl, h2, h3, h.1.symm, h.2.symm⟩
      · simp [reject_task, h2, h3] at h
    · simp [reject_task, h2] at h
  · simp [reject_task, h1] at h

lemma reclaim_ok {config : ProgramConfig} {task : TaskAccount}
    {signer taskPda : Pubkey} {now : Int} {res : ReclaimResult}
    (h : reclaim_task_funds config task signer taskPda now = .ok res) :
    task.consigner_wallet = signer ∧
    (task.status = .Rejected ∨ (task.status = .Open ∧ task.expiration_timestamp < now)) ∧
    res = { task := { task with
                        status := .Reclaimed,
                        status_update_timestamp := now,
                        reward_amount_locked := 0 },
            transfer := { source := taskPda, dest := signer,
                          amount := task.reward_amount_locked } } := by
  by_cases h1 : task.consigner_wallet = signer
  · subst h1
    by_cases h2 : task.status = TaskStatus.Rejected
    · rcases hc : checkedAddI64 task.status_update_timestamp config.denial_penalty_duration with _ | e
      · simp [reclaim_task_funds, h2, hc] at h
      · by_cases h3 : now ≥ e
        · simp [reclaim_task_funds, h2, hc, h3] at h
          exact ⟨rfl, Or.inl h2, h.symm⟩
        · simp [reclaim_task_funds, h2, hc, h3] at h
    · by_cases h3 : task.status = TaskStatus.Open ∧ now > task.expiration_timestamp
      · simp [reclaim_task_funds, h2, h3] at h
        exact ⟨rfl, Or.inr ⟨h3.1, h3.2⟩, h.symm⟩
      · simp [reclaim_task_funds, h2, h3] at h
  · simp [reclaim_task_funds, h1] at h

/-- C1 counterexample: a `Rejected` record whose `status_update_timestamp` is
`i64::MAX` is reclaimed at time 0, which is strictly before
`status_update_timestamp + denial_penalty_duration`, yet the call fails with
`TimestampOverflow`, not `DenialLockupActive`: the claim as stated is false
when the lockup-deadline addition overflows. -/
theorem reclaim_rejected_overflow_cex :
    (0 : Int) < rejOvTask.status_update_timestamp + cfg0.denial_penalty_duration ∧
    reclaim_task_funds cfg0 rejOvTask 5 9 0 = .error .TimestampOverflow ∧
    SunpathError.TimestampOverflow ≠ SunpathError.DenialLockupActive := by
  decide

/-- C1 (amended): for a `Rejected` record, provided the caller is the stored
consigner and `status_update_timestamp + denial_penalty_duration` stays in the
signed 64-bit range (otherwise `TimestampOverflow`), `reclaim_task_funds`
strictly before that instant fails with `DenialLockupActive`, and at or after
it succeeds, transferring exactly `reward_amount_locked` back to the stored
consigner, setting `status = Reclaimed`, `status_update_timestamp = now`, and
`reward_amount_locked = 0`. -/
theorem reclaim_rejected_lockup (config : ProgramConfig) (task : TaskAccount)
    (signer taskPda : Pubkey) (now : Int)
    (hs : task.consigner_wallet = signer) (hr : task.status = .Rejected)
    (hlo : i64Min ≤ task.status_update_timestamp + config.denial_penalty_duration)
    (hhi : task.status_update_timestamp + config.denial_penalty_duration ≤ i64Max) :
    (now < task.status_update_timestamp + config.denial_penalty_duration →
       reclaim_task_funds config task signer taskPda now = .error .DenialLockupActive) ∧
    (task.status_update_timestamp + config.denial_penalty_duration ≤ now →
       reclaim_task_funds config task signer taskPda now =
         .ok { task := { task with
                           status := .Reclaimed,
                           status_update_timestamp := now,
                           reward_amount_locked := 0 },
               transfer := { source := taskPda, dest := task.consigner_wallet,
                             amount := task.reward_amount_locked } }) := by
  subst hs
  have hc := checkedAddI64_in hlo hhi
  constructor
  · intro hlt
    have hn : ¬ (now ≥ task.status_update_timestamp + config.denial_penalty_duration) := by
      omega
    simp [reclaim_task_funds, hr, hc, hn]
  · intro hge
    have hn : now ≥ task.status_update_timestamp + config.denial_penalty_duration := hge
    simp [reclaim_task_funds, hr, hc, hn]

/-- C1 witness: with `cfg0` (penalty 100) and `rejTask` (rejected at 50), a
reclaim at 149 fails with `DenialLockupActive` and a reclaim at 150 pays the
500 lamports back to consigner 5. -/
theorem reclaim_rejected_lockup_w :
    reclaim_task_funds cfg0 rejTask 5 9 149 = .error .DenialLockupActive ∧
    reclaim_task_funds cfg0 rejTask 5 9 150 =
      .ok { task := { task_id := 3, consigner_wallet := 5, reward_amount_locked := 0,
                      creation_timestamp := 0, duration_seconds := 100,
                      expiration_timestamp := 100, status := .Reclaimed,
                      status_update_timestamp := 150, assigned_reporter := none,
                      report_pda := none, is_initialized := true },
            transfer := { source := 9, dest := 5, amount := 500 } } :=
  ⟨(reclaim_rejected_lockup cfg0 rejTask 5 9 149 rfl rfl (by decide) (by decide)).1
     (by decide),
   (reclaim_rejected_lockup cfg0 rejTask 5 9 150 rfl rfl (by decide) (by decide)).2
     (by decide)⟩

/-- C4 counterexample: on an `Approved` record with `now > expiration_timestamp`
(and the consigner calling), `accept_task` fails with `TaskNotOpen`, not
`TaskExpired`: the status check precedes the expiration check, so the claim's
universal "fail with TaskExpired" is false for non-`Open` records. -/
theorem expired_error_cex :
    task0A.expiration_timestamp < 3601 ∧
    accept_task task0A cnt0 5 6 6 9 3601 = .error .TaskNotOpen ∧
    reject_task task0A cnt0 5 3601 = .error .TaskNotOpen ∧
    SunpathError.TaskNotOpen ≠ SunpathError.TaskExpired := by
  decide

/-- C4 (amended): for every record that is still `Open`, with the stored
consigner calling, whenever `now > expiration_timestamp` both `accept_task`
and `reject_task` fail with `TaskExpired` (and, errors being total aborts in
this embedding, no record, counter or balance change is produced). -/
theorem expired_open_fails (task : TaskAccount) (counter : AdminActionCounter)
    (signer recipient recipientAccount taskPda : Pubkey) (now : Int)
    (hs : task.consigner_wallet = signer) (ho : task.status = .Open)
    (he : task.expiration_timestamp < now) :
    accept_task task counter signer recipient recipientAccount taskPda now =
      .error .TaskExpired ∧
    reject_task task counter signer now = .error .TaskExpired := by
  subst hs
  have hn : ¬ (now ≤ task.expiration_timestamp) := by omega
  constructor
  · simp [accept_task, ho, hn]
  · simp [reject_task, ho, hn]

/-- C4 witness: accepting or rejecting the open `task0` (expiring at 3600) at
time 3601 fails with `TaskExpired`. -/
theorem expired_open_fails_w :
    accept_task task0 cnt0 5 6 6 9 3601 = .error .TaskExpired ∧
    reject_task task0 cnt0 5 3601 = .error .TaskExpired :=
  expired_open_fails task0 cnt0 5 6 6 9 3601 rfl rfl (by decide)

/-- C6 counterexample: a `create_task` call whose expiration addition
overflows (`now = i64::MAX`, duration 1) but whose reward 5 is below the
configured minimum 10 fails with `RewardAmountTooLow`, not
`TimestampOverflow`: the reward check precedes the overflow check, so the
claim's unconditional "fails with TimestampOverflow" is false. -/
theorem create_overflow_cex :
    ¬ (i64Min ≤ i64Max + (1 : Int) ∧ i64Max + (1 : Int) ≤ i64Max) ∧
    create_task cfg0 i64Max 5 9 1 5 1 = .error .RewardAmountTooLow ∧
    SunpathError.RewardAmountTooLow ≠ SunpathError.TimestampOverflow := by
  decide

/-- C6 (amended): every record created by `create_task` satisfies
`expiration_timestamp = creation_timestamp + duration_seconds` exactly (with
`creation_timestamp = now`), and when the addition would leave the signed
64-bit range, `create_task` fails with `TimestampOverflow` — provided
`reward_amount >= minimum_reward_amount`, since the reward check runs first
and otherwise `RewardAmountTooLow` takes precedence. -/
theorem create_expiration (config : ProgramConfig) (now : Int)
    (consigner taskPda : Pubkey) (task_id reward : Nat) (dur : Int) :
    (∀ t tr, create_task config now consigner taskPda task_id reward dur = .ok (t, tr) →
       t.expiration_timestamp = t.creation_timestamp + t.duration_seconds ∧
       t.creation_timestamp = now ∧ t.duration_seconds = dur) ∧
    (config.minimum_reward_amount ≤ reward →
       ¬ (i64Min ≤ now + dur ∧ now + dur ≤ i64Max) →
       create_task config now consigner taskPda task_id reward dur =
         .error .TimestampOverflow) := by
  constructor
  · intro t tr h
    obtain ⟨-, -, -, ht, -⟩ := create_ok h
    subst ht
    exact ⟨rfl, rfl, rfl⟩
  · intro hr hov
    have h1 : ¬ (reward < config.minimum_reward_amount) := by omega
    have hc : checkedAddI64 now dur = none := by
      unfold checkedAddI64; rw [if_neg hov]
    simp [create_task, h1, hc]

/-- C6 witness: creating at time 3 with duration 7 yields expiration 10, and
creating at `i64::MAX` with duration 1 and a sufficient reward fails with
`TimestampOverflow`. -/
theorem create_expiration_w :
    ((10 : Int) = 3 + 7 ∧ (3 : Int) = 3 ∧ (7 : Int) = 7) ∧
    create_task cfg0 i64Max 5 9 1 1000 1 = .error .TimestampOverflow :=
  ⟨(create_expiration cfg0 3 5 9 1 1000 7).1
     { task_id := 1, consigner_wallet := 5, reward_amount_locked := 1000,
       creation_timestamp := 3, duration_seconds := 7,
       expiration_timestamp := 10, status := .Open,
       status_update_timestamp := 3, assigned_reporter := none,
       report_pda := none, is_initialized := true }
     { source := 5, dest := 9, amount := 1000 } (by decide),
   (create_expiration cfg0 i64Max 5 9 1 1000 1).2 (by decide) (by decide)⟩

/-- C7: every successful `accept_task` increments exactly the caller's accept
count by one leaving the reject count unchanged, every successful
`reject_task` increments exactly the reject count by one leaving the accept
count unchanged, and an otherwise-valid call whose target counter already
sits at `u64::MAX` fails with `CounterOverflow` (so, errors being total
aborts, counter and record are unchanged). -/
theorem counter_increment (task : TaskAccount) (counter : AdminActionCounter)
    (signer recipient recipientAccount taskPda : Pubkey) (now : Int) :
    (∀ res, accept_task task counter signer recipient recipientAccount taskPda now = .ok res →
       res.counter.accept_count = counter.accept_count + 1 ∧
       res.counter.reject_count = counter.reject_count) ∧
    (∀ t2 c2, reject_task task counter signer now = .ok (t2, c2) →
       c2.reject_count = counter.reject_count + 1 ∧
       c2.accept_count = counter.accept_count) ∧
    (task.consigner_wallet = signer → task.status = .Open →
       now ≤ task.expiration_timestamp → counter.accept_count = u64Max →
       accept_task task counter signer recipient recipientAccount taskPda now =
         .error .CounterOverflow) ∧
    (task.consigner_wallet = signer → task.status = .Open →
       now ≤ task.expiration_timestamp → counter.reject_count = u64Max →
       reject_task task counter signer now = .error .CounterOverflow) := by
  refine ⟨?_, ?_, ?_, ?_⟩
  · intro res h
    obtain ⟨-, -, -, hres⟩ := accept_ok h
    subst hres
    exact ⟨rfl, rfl⟩
  · intro t2 c2 h
    obtain ⟨-, -, -, -, hc2⟩ := reject_ok h
    subst hc2
    exact ⟨rfl, rfl⟩
  · intro hs ho he hmax
    subst hs
    have hc : checkedAddU64 counter.accept_count 1 = none := by
      unfold checkedAddU64; rw [if_neg]; omega
    simp [accept_task, ho, he, hc]
  · intro hs ho he hmax
    subst hs
    have hc : checkedAddU64 counter.reject_count 1 = none := by
      unfold checkedAddU64; rw [if_neg]; omega
    simp [reject_task, ho, he, hc]

/-- C7 witness: one accepted task takes the counter from 0 to 1 accepts with
rejects unchanged, and accepting with the accept count at `u64::MAX` fails
with `CounterOverflow`. -/
theorem counter_increment_w :
    cnt1.accept_count = cnt0.accept_count + 1 ∧
    cnt1.reject_count = cnt0.reject_count ∧
    accept_task task0 cntMax 5 6 6 9 1 = .error .CounterOverflow := by
  have h1 := (counter_increment task0 cnt0 5 6 6 9 1).1
    { task := task0A, counter := cnt1,
      transfer := { source := 9, dest := 6, amount := 1000 } } (by decide)
  have h2 := (counter_increment task0 cntMax 5 6 6 9 1).2.2.1 rfl rfl (by decide) rfl
  exact ⟨h1.1, h1.2, h2⟩

/-- C9: the `Program_sunpath` variant of `accept_task` never compares the
credited `recipient_account` with the `recipient` argument: whenever the
remaining preconditions hold, a call with differing addresses still succeeds,
credits the full locked reward to `recipient_account`, and records the
different `recipient` argument as `assigned_reporter`. -/
theorem accept_v2_recipient_unchecked (task : TaskAccount) (counter : AdminActionCounter)
    (signer recipient recipientAccount taskPda : Pubkey) (now : Int)
    (hne : recipientAccount ≠ recipient)
    (hs : task.consigner_wallet = signer) (ho : task.status = .Open)
    (he : now ≤ task.expiration_timestamp) (hcnt : counter.accept_count < u64Max) :
    accept_task_v2 task counter signer recipient recipientAccount taskPda now =
      .ok { task := { task with
                        status := .Approved,
                        status_update_timestamp := now,
                        assigned_reporter := some recipient },
            counter := { counter with accept_count := counter.accept_count + 1 },
            transfer := { source := taskPda, dest := recipientAccount,
                          amount := task.reward_amount_locked } } ∧
    some recipient ≠ some recipientAccount := by
  subst hs
  have hc := checkedAddU64_in hcnt
  constructor
  · simp [accept_task_v2, ho, he, hc]
  · simpa using fun h => hne h.symm

/-- C9 witness: with `recipient = 6` and `recipient_account = 7`, the variant
accepts `task0`, pays the 1000 lamports to account 7, and stores reporter 6. -/
theorem accept_v2_recipient_unchecked_w :
    accept_task_v2 task0 cnt0 5 6 7 9 1 =
      .ok { task := { task_id := 1, consigner_wallet := 5, reward_amount_locked := 1000,
                      creation_timestamp := 0, duration_seconds := 3600,
                      expiration_timestamp := 3600, status := .Approved,
                      status_update_timestamp := 1, assigned_reporter := some 6,
                      report_pda := none, is_initialized := true },
            counter := { admin := 5, accept_count := 1, reject_count := 0 },
            transfer := { source := 9, dest := 7, amount := 1000 } } ∧
    some (6 : Pubkey) ≠ some (7 : Pubkey) :=
  accept_v2_recipient_unchecked task0 cnt0 5 6 7 9 1 (by decide) rfl rfl (by decide)
    (by decide)

/-- C3: status transitions form a strict forward path: `create_task` births
records `Open`; `accept_task` moves `Open` to `Approved`; `reject_task` moves
`Open` to `Rejected`; `reclaim_task_funds` moves `Rejected` or `Open` to
`Reclaimed`; on an `Approved` or `Reclaimed` record all three mutating
instructions fail; no instruction ever produces `Open` again, and none ever
assigns the dead `Expired` status. -/
theorem status_forward_path (config : ProgramConfig) (task : TaskAccount)
    (counter : AdminActionCounter) (signer recipient recipientAccount taskPda : Pubkey)
    (now : Int) (task_id reward : Nat) (dur : Int) :
    (∀ t tr, create_task config now signer taskPda task_id reward dur = .ok (t, tr) →
       t.status = .Open) ∧
    (∀ res, accept_task task counter signer recipient recipientAccount taskPda now = .ok res →
       task.status = .Open ∧ res.task.status = .Approved) ∧
    (∀ p, reject_task task counter signer now = .ok p →
       task.status = .Open ∧ p.1.status = .Rejected) ∧
    (∀ res, reclaim_task_funds config task signer taskPda now = .ok res →
       (task.status = .Rejected ∨ task.status = .Open) ∧ res.task.status = .Reclaimed) ∧
    ((task.status = .Approved ∨ task.status = .Reclaimed) →
       (∀ res, accept_task task counter signer recipient recipientAccount taskPda now ≠
          .ok res) ∧
       (∀ p, reject_task task counter signer now ≠ .ok p) ∧
       (∀ res, reclaim_task_funds config task signer taskPda now ≠ .ok res)) ∧
    (∀ res, accept_task task counter signer recipient recipientAccount taskPda now = .ok res →
       res.task.status ≠ .Open ∧ res.task.status ≠ .Expired) ∧
    (∀ p, reject_task task counter signer now = .ok p →
       p.1.status ≠ .Open ∧ p.1.status ≠ .Expired) ∧
    (∀ res, reclaim_task_funds config task signer taskPda now = .ok res →
       res.task.status ≠ .Open ∧ res.task.status ≠ .Expired) ∧
    (∀ t tr, create_task config now signer taskPda task_id reward dur = .ok (t, tr) →
       t.status ≠ .Expired) := by
  refine ⟨?_, ?_, ?_, ?_, ?_, ?_, ?_, ?_, ?_⟩
  · intro t tr h
    obtain ⟨-, -, -, ht, -⟩ := create_ok h
    subst ht; rfl
  · intro res h
    obtain ⟨-, h2, -, hres⟩ := accept_ok h
    subst hres
    exact ⟨h2, rfl⟩
  · intro p h
    obtain ⟨t2, c2⟩ := p
    obtain ⟨-, h2, -, ht2, -⟩ := reject_ok h
    subst ht2
    exact ⟨h2, rfl⟩
  · intro res h
    obtain ⟨-, h2, hres⟩ := reclaim_ok h
    subst hres
    refine ⟨?_, rfl⟩
    rcases h2 with h2 | h2
    · exact Or.inl h2
    · exact Or.inr h2.1
  · intro hterm
    refine ⟨?_, ?_, ?_⟩
    · intro res h
      obtain ⟨-, h2, -⟩ := accept_ok h
      rcases hterm with h' | h' <;> simp [h'] at h2
    · intro p h
      obtain ⟨t2, c2⟩ := p
      obtain ⟨-, h2, -⟩ := reject_ok h
      rcases hterm with h' | h' <;> simp [h'] at h2
    · intro res h
      obtain ⟨-, h2, -⟩ := reclaim_ok h
      rcases hterm with h' | h' <;> simp [h'] at h2
  · intro res h
    obtain ⟨-, -, -, hres⟩ := accept_ok h
    subst hres
    exact ⟨by simp, by simp⟩
  · intro p h
    obtain ⟨t2, c2⟩ := p
    obtain ⟨-, -, -, ht2, -⟩ := reject_ok h
    subst ht2
    exact ⟨by simp, by simp⟩
  · intro res h
    obtain ⟨-, -, hres⟩ := reclaim_ok h
    subst hres
    exact ⟨by simp, by simp⟩
  · intro t tr h
    obtain ⟨-, -, -, ht, -⟩ := create_ok h
    subst ht
    simp

/-- C3 witness: concretely, `task0` is accepted into the `Approved` status
from `Open`. -/
theorem status_forward_path_w :
    task0.status = TaskStatus.Open ∧ task0A.status = TaskStatus.Approved :=
  (status_forward_path cfg0 task0 cnt0 5 6 6 9 1 1 1000 3600).2.1
    { task := task0A, counter := cnt1,
      transfer := { source := 9, dest := 6, amount := 1000 } } (by decide)

/-- C5 counterexample: a record carrying the dead `Expired` status also fails
with `CannotReclaimFunds`, although it is neither `Approved`, nor `Reclaimed`,
nor `Open`-and-unexpired — so the claim's "exactly when" is false. -/
theorem cannot_reclaim_cex :
    reclaim_task_funds cfg0 expTask 5 9 50 = .error .CannotReclaimFunds ∧
    expTask.status ≠ .Approved ∧ expTask.status ≠ .Reclaimed ∧
    ¬ (expTask.status = .Open ∧ (50 : Int) ≤ expTask.expiration_timestamp) := by
  decide

/-- C5 (amended): with the stored consigner calling, `reclaim_task_funds`
fails with `CannotReclaimFunds` exactly when the record is `Approved`,
`Reclaimed`, carries the dead `Expired` status, or is `Open` but not yet
expired; in particular `Approved` records and already-`Reclaimed` records
always fail that way (no double reclaim), while an `Open` record with
`now > expiration_timestamp` succeeds unconditionally with no lockup delay. -/
theorem cannot_reclaim_iff (config : ProgramConfig) (task : TaskAccount)
    (signer taskPda : Pubkey) (now : Int) (hs : task.consigner_wallet = signer) :
    (reclaim_task_funds config task signer taskPda now = .error .CannotReclaimFunds ↔
       (task.status = .Approved ∨ task.status = .Reclaimed ∨ task.status = .Expired ∨
        (task.status = .Open ∧ now ≤ task.expiration_timestamp))) ∧
    (task.status = .Open → task.expiration_timestamp < now →
       reclaim_task_funds config task signer taskPda now =
         .ok { task := { task with
                           status := .Reclaimed,
                           status_update_timestamp := now,
                           reward_amount_locked := 0 },
               transfer := { source := taskPda, dest := task.consigner_wallet,
                             amount := task.reward_amount_locked } }) := by
  subst hs
  constructor
  · cases hst : task.status with
    | Open =>
        by_cases hexp : now ≤ task.expiration_timestamp
        · have hn : ¬ (now > task.expiration_timestamp) := by omega
          simp [reclaim_task_funds, hst, hn, hexp]
        · have hgt : now > task.expiration_timestamp := by omega
          simp [reclaim_task_funds, hst, hgt, hexp]
    | Approved => simp [reclaim_task_funds, hst]
    | Rejected =>
        rcases hc : checkedAddI64 task.status_update_timestamp config.denial_penalty_duration
          with _ | e
        · simp [reclaim_task_funds, hst, hc]
        · by_cases h3 : now ≥ e
          · simp [reclaim_task_funds, hst, hc, h3]
          · simp [reclaim_task_funds, hst, hc, h3]
    | Expired => simp [reclaim_task_funds, hst]
    | Reclaimed => simp [reclaim_task_funds, hst]
  · intro ho hlt
    have hgt : now > task.expiration_timestamp := hlt
    simp [reclaim_task_funds, ho, hgt]

/-- C5 witness: reclaiming the `Approved` record `task0A` fails with
`CannotReclaimFunds`, and reclaiming the `Open` `task0` at time 4000 (past
expiration 3600) succeeds immediately. -/
theorem cannot_reclaim_iff_w :
    reclaim_task_funds cfg0 task0A 5 9 50 = .error .CannotReclaimFunds ∧
    reclaim_task_funds cfg0 task0 5 9 4000 =
      .ok { task := { task_id := 1, consigner_wallet := 5, reward_amount_locked := 0,
                      creation_timestamp := 0, duration_seconds := 3600,
                      expiration_timestamp := 3600, status := .Reclaimed,
                      status_update_timestamp := 4000, assigned_reporter := none,
                      report_pda := none, is_initialized := true },
            transfer := { source := 9, dest := 5, amount := 1000 } } :=
  ⟨((cannot_reclaim_iff cfg0 task0A 5 9 50 rfl).1).mpr (Or.inl rfl),
   (cannot_reclaim_iff cfg0 task0 5 9 4000 rfl).2 rfl (by decide)⟩

/-- C8 counterexample: with identical record, counter, clock and inputs but a
`recipient_account` (7) different from the `recipient` argument (6), the two
variants of `accept_task` both succeed yet produce different results — the
first variant's transfer instruction names the `recipient` argument as
destination, the second credits `recipient_account`. -/
theorem variant_equiv_cex :
    accept_task task0 cnt0 5 6 7 9 1 ≠ accept_task_v2 task0 cnt0 5 6 7 9 1 := by
  decide

/-- C8 (amended): the two program variants agree on `create_task` and
`reclaim_task_funds` for all inputs, and on `reject_task` and `accept_task`
whenever the counter's `admin` field already equals the caller (the first
variant rewrites it, the second does not) and — for `accept_task` — the
supplied `recipient_account` equals the `recipient` argument; when those
addresses differ the variants pay different accounts (see the
counterexample). -/
theorem variant_equiv (config : ProgramConfig) (task : TaskAccount)
    (counter : AdminActionCounter) (signer recipient recipientAccount taskPda : Pubkey)
    (now : Int) (task_id reward : Nat) (dur : Int) :
    create_task config now signer taskPda task_id reward dur =
      create_task_v2 config now signer taskPda task_id reward dur ∧
    reclaim_task_funds config task signer taskPda now =
      reclaim_task_funds_v2 config task signer taskPda now ∧
    (counter.admin = signer →
       reject_task task counter signer now = reject_task_v2 task counter signer now) ∧
    (counter.admin = signer → recipientAccount = recipient →
       accept_task task counter signer recipient recipientAccount taskPda now =
         accept_task_v2 task counter signer recipient recipientAccount taskPda now) := by
  refine ⟨rfl, rfl, ?_, ?_⟩
  · intro h
    subst h
    rfl
  · intro h1 h2
    subst h1
    subst h2
    rfl

/-- C8 witness: on `task0` with matching recipient accounts and a counter
owned by the caller, both variants agree on reject and accept. -/
theorem variant_equiv_w :
    reject_task task0 cnt0 5 2 = reject_task_v2 task0 cnt0 5 2 ∧
    accept_task task0 cnt0 5 6 6 9 1 = accept_task_v2 task0 cnt0 5 6 6 9 1 :=
  ⟨(variant_equiv cfg0 task0 cnt0 5 6 6 9 2 1 1000 3600).2.2.1 rfl,
   (variant_equiv cfg0 task0 cnt0 5 6 6 9 1 1 1000 3600).2.2.2 rfl rfl⟩

/-- C2 counterexample: the claim is false after `accept_task` — the state
reached by creating `task0` (custody 1000) and accepting it (custody drained
to 0) still carries `reward_amount_locked = 1000`: `accept_task` pays the
reward out of custody but never resets the field. -/
theorem locked_custody_cex :
    Reach cfg0 5 9 task0A 0 ∧ task0A.reward_amount_locked ≠ 0 := by
  constructor
  · have h1 : Reach cfg0 5 9 task0 1000 :=
      Reach.created 0 1 1000 3600 task0
        { source := 5, dest := 9, amount := 1000 } (by decide)
    have h2 := Reach.accepted task0 1000 cnt0 5 6 6 1
      { task := task0A, counter := cnt1,
        transfer := { source := 9, dest := 6, amount := 1000 } }
      h1 (by decide)
    simpa using h2
  · decide

/-- C2 (amended): on every reachable task state, custody equals
`reward_amount_locked` as long as the record is not `Approved` (so for
`Open`, `Rejected`, and — the field having been zeroed in the same step —
`Reclaimed` records); a successful `accept_task` drains custody to zero while
leaving `reward_amount_locked` at its creation value, so on `Approved`
records custody is zero, not `reward_amount_locked`. -/
theorem locked_custody_invariant (config : ProgramConfig) (consigner taskPda : Pubkey)
    (task : TaskAccount) (custody : Nat)
    (h : Reach config consigner taskPda task custody) :
    (task.status = .Approved → custody = 0) ∧
    (task.status ≠ .Approved → custody = task.reward_amount_locked) := by
  induction h with
  | created now task_id reward dur task tr hc =>
      obtain ⟨-, -, -, ht, htr⟩ := create_ok hc
      subst ht; subst htr
      constructor
      · intro hA
        exact absurd hA (by simp)
      · intro _
        rfl
  | accepted task custody counter signer recipient recipientAccount now res hr hok ih =>
      obtain ⟨-, h2, -, hres⟩ := accept_ok hok
      subst hres
      constructor
      · intro _
        have hcust := ih.2 (by simp [h2])
        simp only [AcceptResult.transfer]
        omega
      · intro hne
        exact absurd rfl hne
  | rejected task custody counter signer now task2 counter2 hr hok ih =>
      obtain ⟨-, h2, -, ht2, -⟩ := reject_ok hok
      subst ht2
      constructor
      · intro hA
        simp at hA
      · intro _
        have hcust := ih.2 (by simp [h2])
        simpa using hcust
  | reclaimed task custody signer now res hr hok ih =>
      obtain ⟨-, h2, hres⟩ := reclaim_ok hok
      subst hres
      constructor
      · intro hA
        simp at hA
      · intro _
        have hne : task.status ≠ TaskStatus.Approved := by
          rcases h2 with h2 | h2
          · simp [h2]
          · simp [h2.1]
        have hcust := ih.2 hne
        simp only [ReclaimResult.transfer]
        omega

/-- C2 witness: the freshly created `task0` is reachable with custody 1000,
which the invariant equates with its `reward_amount_locked`. -/
theorem locked_custody_invariant_w :
    task0.status ≠ TaskStatus.Approved ∧ (1000 : Nat) = task0.reward_amount_locked :=
  ⟨by decide,
   (locked_custody_invariant cfg0 5 9 task0 1000
      (Reach.created 0 1 1000 3600 task0
        { source := 5, dest := 9, amount := 1000 } (by decide))).2 (by decide)⟩

/-- C10: `create_task` places no lower bound on `duration_seconds`: any
duration — zero or negative included — is accepted provided the reward meets
the minimum and the expiration addition stays in range, producing an `Open`
record with `expiration_timestamp = now + duration`; with a negative duration
the expiration precedes creation, making the task immediately `TaskExpired`
for `accept_task`/`reject_task` and immediately reclaimable. -/
theorem create_no_min_duration (config : ProgramConfig) (counter : AdminActionCounter)
    (now : Int) (consigner taskPda recipient recipientAccount : Pubkey)
    (task_id reward : Nat) (dur : Int)
    (hr : config.minimum_reward_amount ≤ reward)
    (hlo : i64Min ≤ now + dur) (hhi : now + dur ≤ i64Max) :
    create_task config now consigner taskPda task_id reward dur =
      .ok (createdTask consigner now task_id reward dur,
           { source := consigner, dest := taskPda, amount := reward }) ∧
    (createdTask consigner now task_id reward dur).status = .Open ∧
    (createdTask consigner now task_id reward dur).expiration_timestamp = now + dur ∧
    (dur < 0 →
      (createdTask consigner now task_id reward dur).expiration_timestamp <
        (createdTask consigner now task_id reward dur).creation_timestamp ∧
      accept_task (createdTask consigner now task_id reward dur) counter consigner
        recipient recipientAccount taskPda now = .error .TaskExpired ∧
      reject_task (createdTask consigner now task_id reward dur) counter consigner now =
        .error .TaskExpired ∧
      reclaim_task_funds config (createdTask consigner now task_id reward dur) consigner
          taskPda now =
        .ok { task := { createdTask consigner now task_id reward dur with
                          status := .Reclaimed,
                          status_update_timestamp := now,
                          reward_amount_locked := 0 },
              transfer := { source := taskPda, dest := consigner, amount := reward } }) := by
  have h1 : ¬ (reward < config.minimum_reward_amount) := by omega
  have hc := checkedAddI64_in hlo hhi
  refine ⟨by simp [create_task, h1, hc, createdTask], rfl, rfl, ?_⟩
  intro hd
  have hne : ¬ (now ≤ now + dur) := by omega
  have hgt : now > now + dur := by omega
  refine ⟨by simp [createdTask]; omega, ?_, ?_, ?_⟩
  · simp [accept_task, createdTask, hne]
  · simp [reject_task, createdTask, hne]
  · simp [reclaim_task_funds, createdTask, hgt]

/-- C10 witness: creating with duration -5 at time 0 succeeds and the task is
immediately expired for accept. -/
theorem create_no_min_duration_w :
    create_task cfg0 0 5 9 1 1000 (-5) =
      .ok (createdTask 5 0 1 1000 (-5), { source := 5, dest := 9, amount := 1000 }) ∧
    accept_task (createdTask 5 0 1 1000 (-5)) cnt0 5 6 6 9 0 = .error .TaskExpired := by
  have h := create_no_min_duration cfg0 cnt0 0 5 9 6 6 1 1000 (-5) (by decide) (by decide)
    (by decide)
  exact ⟨h.1, (h.2.2.2 (by decide)).2.1⟩
